import Mathlib

/-!
A shallow embedding of `synapse/websocket/websocket.py`: the per-connection
WebSocket protocol (`SynapseWebsocketProtocol`) — handshake authentication,
the inbound-message dispatcher, the long-poll sync loop, the per-method
handlers, and the factory-shared transaction cache.

External collaborators (auth service, presence handler, sync handler, event
creation, typing handler) are represented by abstract outcome parameters;
the control flow, key derivation, envelope construction and validation logic
are translated from the source.
-/

namespace Websocket

/-! ## Constants (websocket.py lines 24-32 and imported synapse constants) -/

/-- Close reason accompanying close code 3001 (`ERR_NO_AT`). -/
def ERR_NO_AT : String := "No access_token provided."

/-- Close reason accompanying close code 3002 (`ERR_UNKNOWN_AT`). -/
def ERR_UNKNOWN_AT : String := "Unknown access_token."

/-- Close reason accompanying close code 3003 (`ERR_UNKNOWN_FAIL`). -/
def ERR_UNKNOWN_FAIL : String := "Unknown failure trying to auth."

/-- The long-poll timeout `SYNC_TIMEOUT` (milliseconds). -/
def SYNC_TIMEOUT : Nat := 90000

/-- The value of `PresenceState.OFFLINE` from `synapse.api.constants`. -/
def presenceOffline : String := "offline"

/-- The value of `EventTypes.Member` from `synapse.api.constants`. -/
def eventTypeMember : String := "m.room.member"

/-- The value of `Codes.BAD_JSON` from `synapse.api.errors`. -/
def codeBadJson : String := "M_BAD_JSON"

/-- The value of `Codes.UNKNOWN` from `synapse.api.errors`: the default
errcode a `SynapseError` carries when none is given explicitly. -/
def codeUnknown : String := "M_UNKNOWN"

/-! ## Handshake authentication (`onConnect`, lines 45-146)

`onConnect` reads `access_token` from the query parameters; when it is
absent it closes with 3001 and returns.  Otherwise it calls
`auth.get_user_by_access_token`; an `AuthError` closes with 3002, any other
exception closes with 3003, and in both cases `onConnect` returns before the
presence announcement and before `onOpen` (which is where the sync loop is
started) can ever run. -/

/-- Outcome of the external `auth.get_user_by_access_token` call. -/
inductive AuthOutcome where
  | ok
  | authError (e : String)
  | otherError (e : String)
deriving DecidableEq, Repr

/-- What the handshake did: the close code and reason sent (if any), whether
the auth service was consulted, whether presence was announced, and whether
the sync loop was started (never in `onConnect`; `onOpen` starts it only
after a successful handshake). -/
structure ConnectResult where
  closeCode : Option Nat
  closeReason : Option String
  authAttempted : Bool
  presenceAnnounced : Bool
  syncStarted : Bool
deriving DecidableEq, Repr

/-- The credential-checking portion of `onConnect` (lines 66-134): token
extraction, auth validation with its two failure branches, and — on
success — the presence announcement guarded by `presence != OFFLINE`.
Subprotocol negotiation and filter resolution happen afterwards and do not
affect the close codes modelled here. -/
def onConnect (access_token : Option String) (auth : AuthOutcome)
    (presenceParam : String) : ConnectResult :=
  match access_token with
  | none =>
    { closeCode := some 3001, closeReason := some ERR_NO_AT,
      authAttempted := false, presenceAnnounced := false, syncStarted := false }
  | some _ =>
    match auth with
    | .authError _ =>
      { closeCode := some 3002, closeReason := some ERR_UNKNOWN_AT,
        authAttempted := true, presenceAnnounced := false, syncStarted := false }
    | .otherError _ =>
      { closeCode := some 3003, closeReason := some ERR_UNKNOWN_FAIL,
        authAttempted := true, presenceAnnounced := false, syncStarted := false }
    | .ok =>
      { closeCode := none, closeReason := none,
        authAttempted := true,
        presenceAnnounced := presenceParam ≠ presenceOffline,
        syncStarted := false }

/-! ## The inbound-message dispatcher (`onMessage`, lines 153-209)

A text frame is parsed as JSON; a parse failure is logged and ignored.  The
parsed value is then used as `msg["method"]` and `msg["id"]` — both plain
Python dict accesses.  The lookup of `msg["method"]` and the construction of
the dispatch table happen OUTSIDE the `try` block, so a `KeyError` (no
`method` key), a `TypeError` (non-dict payload, or an unhashable `method`
value used as a dict key) escapes `onMessage` and no reply is sent.  Inside
the `try`, a handler's `SynapseError` or generic exception is converted into
an error envelope built from `msg["id"]`; when `msg` has no `id`, that very
access raises again inside the `except` block and, again, nothing is sent. -/

/-- A JSON value as seen at the top level of a parsed message.  Container
values (`jarr`, `jobj`) matter only through being unhashable in Python
(using one as a dict key raises `TypeError`), so their contents are not
tracked at this level. -/
inductive JVal where
  | jstr (s : String)
  | jnum (n : Int)
  | jbool (b : Bool)
  | jnull
  | jarr
  | jobj
deriving DecidableEq, Repr

/-- Python dict lookup `fields[key]` on a JSON object (keys are unique). -/
def jlookup : List (String × JVal) → String → Option JVal
  | [], _ => none
  | (k, v) :: rest, key => if k = key then some v else jlookup rest key

/-- Whether a JSON value is unhashable in Python (list or dict). -/
def isContainer : JVal → Bool
  | .jarr => true
  | .jobj => true
  | _ => false

/-- An inbound frame after the parse step. -/
inductive Payload where
  | binary
  | unparseable
  | nonObject
  | object (fields : List (String × JVal))

/-- What a per-method handler does with a message: return a serialized
response, raise a `SynapseError` (errcode, message), or raise any other
exception (its string form). -/
inductive HandlerResult where
  | ok (resp : String)
  | synapseErr (errcode : String) (emsg : String)
  | exc (desc : String)
deriving DecidableEq, Repr

/-- An outbound frame: a handler's own serialized response sent verbatim, or
an error envelope `id / error \x7b errcode, error \x7d` built by the
dispatcher (or by its unknown-method fallback). -/
inductive Sent where
  | raw (s : String)
  | envelope (id : JVal) (errcode : String) (emsg : String)
deriving DecidableEq, Repr

/-- The six entries of `supported_methods` (lines 171-178). -/
def supportedMethods : List String :=
  ["ping", "presence", "read_markers", "send", "state", "typing"]

/-- The `try` block around a recognized handler (lines 191-209): send the
handler's result; on `SynapseError` or any other exception, build an error
envelope from `msg["id"]` — and when `id` is absent, the access inside the
`except` block raises again and the exception escapes (second component
`true`), with nothing sent. -/
def dispatchKnown (res : HandlerResult) (fields : List (String × JVal)) :
    List Sent × Bool :=
  match res with
  | .ok resp => ([.raw resp], false)
  | .synapseErr ec em =>
    match jlookup fields "id" with
    | some i => ([.envelope i ec em], false)
    | none => ([], true)
  | .exc d =>
    match jlookup fields "id" with
    | some i => ([.envelope i codeUnknown d], false)
    | none => ([], true)

/-- The unknown-method fallback lambda (lines 182-189): an error envelope
`errcode M_BAD_JSON, error "Unknown method"` around `msg["id"]`; when `id`
is absent, the `KeyError` is re-raised by the `except` block's own
`msg["id"]` access and escapes. -/
def unknownMethodReply (fields : List (String × JVal)) : List Sent × Bool :=
  match jlookup fields "id" with
  | some i => ([.envelope i codeBadJson "Unknown method"], false)
  | none => ([], true)

/-- `onMessage`, parameterized by the behaviour of the six real handlers
(`behav name fields` is what handler `name` does on the message).  Returns
the list of frames sent and whether an exception escaped the dispatcher. -/
def onMessage (behav : String → List (String × JVal) → HandlerResult) :
    Payload → List Sent × Bool
  | .binary => ([], false)
  | .unparseable => ([], false)
  | .nonObject => ([], true)
  | .object fields =>
    match jlookup fields "method" with
    | none => ([], true)
    | some v =>
      if isContainer v then ([], true)
      else
        match v with
        | .jstr s =>
          if s ∈ supportedMethods then dispatchKnown (behav s fields) fields
          else unknownMethodReply fields
        | _ => unknownMethodReply fields

/-! ## Transaction key and cache (`_genTxnKey` lines 211-213; factory `txns`
line 467; `_handle_send` lines 345-378; `_handle_state` lines 380-427) -/

/-- The authenticated requester built at handshake (lines 76-82): the fields
`_genTxnKey` reads. -/
structure Requester where
  userId : String
  access_token_id : Int
deriving DecidableEq, Repr

/-- `_genTxnKey` (lines 211-213): `user/token_id/msg_id`. -/
def genTxnKey (r : Requester) (msgId : String) : String :=
  r.userId ++ "/" ++ toString r.access_token_id ++ "/" ++ msgId

/-- A serialized `send`/`state` success response: `id` with a `result`
object holding `event_id` (lines 373-378, 421-427), or `id` with an empty
`error` object when the membership branch yields no event (line 425). -/
inductive Resp where
  | withResult (id : String) (event_id : String)
  | withEmptyError (id : String)
deriving DecidableEq, Repr

/-- The outcome of one execution of a cached operation: its response, or the
exception it raised. -/
abbrev TxnOutcome := Except String Resp

/-- Equality of outcomes is decidable (componentwise). -/
instance : DecidableEq TxnOutcome := fun a b =>
  match a, b with
  | .ok x, .ok y =>
    if h : x = y then .isTrue (by rw [h]) else .isFalse (by simp [h])
  | .error x, .error y =>
    if h : x = y then .isTrue (by rw [h]) else .isFalse (by simp [h])
  | .ok _, .error _ => .isFalse (by simp)
  | .error _, .ok _ => .isFalse (by simp)

/-- The shared cache's entries plus a counter of how many times an
underlying side-effecting operation (event creation or membership update)
has been invoked. -/
structure CacheState where
  entries : List (String × TxnOutcome)
  execCount : Nat
deriving DecidableEq, Repr

/-- Lookup of a committed result under a key. -/
def lookupTxn : List (String × TxnOutcome) → String → Option TxnOutcome
  | [], _ => none
  | (k, v) :: rest, key => if k = key then some v else lookupTxn rest key

/-- Modelled from the spec: `HttpTransactionCache.fetch_or_execute` (module
`synapse.rest.client.transactions`, imported at line 17 but not among these
sources).  Per the spec's contract: if `key` has a committed result, return
it without invoking `operation`; otherwise invoke `operation` exactly once,
store its outcome (success or failure) under `key`, and return it.  The
operation threads the `CacheState` so its execution shows in `execCount`. -/
def fetch_or_execute (key : String)
    (op : CacheState → TxnOutcome × CacheState)
    (st : CacheState) : TxnOutcome × CacheState :=
  match lookupTxn st.entries key with
  | some r => (r, st)
  | none =>
    let r := op st
    (r.1, { r.2 with entries := (key, r.1) :: r.2.entries })

/-- The external services `_handle_send`/`_handle_state` invoke, indexed by
the invocation counter: `create_and_send_nonmember_event` yields an event id
or raises; `update_membership` yields an optional event or raises. -/
structure OpEnv where
  createEvent : Nat → Except String String
  updateMembership : Nat → Except String (Option String)

/-- A `send` request's fields (lines 357-371). -/
structure SendMsg where
  id : String
  event_type : String
  content : String
  room_id : String
deriving DecidableEq, Repr

/-- A `state` request's fields (lines 394-402). -/
structure StateMsg where
  id : String
  event_type : String
  content : String
  room_id : String
  state_key : Option String
deriving DecidableEq, Repr

/-- Record one invocation of an underlying side-effecting operation. -/
def bumpExec (st : CacheState) : CacheState :=
  { st with execCount := st.execCount + 1 }

/-- The `use_cached=False` body of `_handle_send` (lines 357-378): invoke
event creation and wrap the event id as `id / result / event_id`. -/
def handle_send_uncached (ops : OpEnv) (m : SendMsg) (st : CacheState) :
    TxnOutcome × CacheState :=
  match ops.createEvent st.execCount with
  | .ok eid => (.ok (.withResult m.id eid), bumpExec st)
  | .error e => (.error e, bumpExec st)

/-- The `use_cached=False` body of `_handle_state` (lines 392-427): the
membership branch for `EventTypes.Member`, generic event creation otherwise,
then `result/event_id` when an event came back, empty `error` otherwise. -/
def handle_state_uncached (ops : OpEnv) (m : StateMsg) (st : CacheState) :
    TxnOutcome × CacheState :=
  if m.event_type = eventTypeMember then
    match ops.updateMembership st.execCount with
    | .ok (some eid) => (.ok (.withResult m.id eid), bumpExec st)
    | .ok none => (.ok (.withEmptyError m.id), bumpExec st)
    | .error e => (.error e, bumpExec st)
  else
    match ops.createEvent st.execCount with
    | .ok eid => (.ok (.withResult m.id eid), bumpExec st)
    | .error e => (.error e, bumpExec st)

/-- `_handle_send` with `use_cached=True` (lines 348-355): route through the
shared cache under `_genTxnKey(msg["id"])`. -/
def handle_send (req : Requester) (ops : OpEnv) (m : SendMsg)
    (st : CacheState) : TxnOutcome × CacheState :=
  fetch_or_execute (genTxnKey req m.id) (handle_send_uncached ops m) st

/-- `_handle_state` with `use_cached=True` (lines 383-390): route through
the shared cache under `_genTxnKey(msg["id"])`. -/
def handle_state (req : Requester) (ops : OpEnv) (m : StateMsg)
    (st : CacheState) : TxnOutcome × CacheState :=
  fetch_or_execute (genTxnKey req m.id) (handle_state_uncached ops m) st

/-- A request that routes through the transaction cache: `send` or `state`. -/
inductive TxnReq where
  | send (m : SendMsg)
  | state (m : StateMsg)

/-- The client-supplied message id of a cached request. -/
def TxnReq.msgId : TxnReq → String
  | .send m => m.id
  | .state m => m.id

/-- Dispatch a cached request to its handler. -/
def execTxn (req : Requester) (ops : OpEnv) : TxnReq → CacheState → TxnOutcome × CacheState
  | .send m => handle_send req ops m
  | .state m => handle_state req ops m

/-! ## The sync loop (`_sync` lines 226-268, `_sync_callback` lines 270-287,
`onClose` lines 215-219, `startSyncingClient` lines 221-224) -/

/-- The per-connection session fields the sync loop reads and writes. -/
structure Session where
  userId : String
  since : Option String
  filter_id : String
  full_state : Bool
  device_id : Option String
  shouldSync : Bool
  hasCurrentSync : Bool
  presence : String
deriving DecidableEq, Repr

/-- A result of the external `wait_for_sync_for_user` call: the next-batch
token and the body that `SyncRestServlet.encode_response` serializes. -/
structure SyncResult where
  next_batch : String
  payload : String
deriving DecidableEq, Repr

/-- The `request_key` tuple built at lines 227-234; the second component is
the literal `0` timeout marker of the tuple. -/
structure SyncRequestKey where
  user : String
  timeoutField : Nat
  since : Option String
  filter_id : String
  full_state : Bool
  device_id : Option String
deriving DecidableEq, Repr

/-- The arguments of one `wait_for_sync_for_user` invocation (lines
254-259) together with its `request_key` and the `affect_presence` flag of
the `user_syncing` context (line 245). -/
structure SyncCall where
  request_key : SyncRequestKey
  timeout : Nat
  full_state : Bool
  affect_presence : Bool
deriving DecidableEq, Repr

/-- How `_sync` shapes one iteration's external call from the session and
the `initial` flag: `full_state` is `self.full_state if initial else False`
both in the request key (line 232) and in the call (line 258); the timeout
is `0 if initial else SYNC_TIMEOUT` (line 257). -/
def mkSyncCall (s : Session) (initial : Bool) : SyncCall :=
  { request_key :=
      { user := s.userId, timeoutField := 0, since := s.since,
        filter_id := s.filter_id,
        full_state := if initial then s.full_state else false,
        device_id := s.device_id },
    timeout := if initial then 0 else SYNC_TIMEOUT,
    full_state := if initial then s.full_state else false,
    affect_presence := s.presence ≠ presenceOffline }

/-- How one external call can end: a sync result, an exception, or
cancellation (a `CancelledError` thrown into the generator at the yield). -/
inductive CallOutcome where
  | success (r : SyncResult)
  | failure (e : String)
  | cancelled
deriving Repr

/-- What one run of `sync_with_presence_context` (lines 247-263) did: the
`user_syncing` marker is acquired before the `with` block and released by
`with` on every exit path; `except Exception` logs a warning on failure
(including `CancelledError`, an `Exception` subclass), after which
`defer.returnValue(sync_result)` reads the never-assigned local
`sync_result` and raises, so the inner deferred fires with an error. -/
structure ContextRun where
  markerAcquired : Bool
  markerReleased : Bool
  loggedWarn : Bool
  result : Except String SyncResult

/-- `sync_with_presence_context` (lines 247-263), as a function of the
external call's outcome. -/
def sync_with_presence_context (o : CallOutcome) : ContextRun :=
  match o with
  | .success r =>
    { markerAcquired := true, markerReleased := true, loggedWarn := false,
      result := .ok r }
  | .failure _ =>
    { markerAcquired := true, markerReleased := true, loggedWarn := true,
      result := .error "UnboundLocalError: sync_result" }
  | .cancelled =>
    { markerAcquired := true, markerReleased := true, loggedWarn := true,
      result := .error "UnboundLocalError: sync_result" }

/-- What `_sync_callback` did: the push frames sent, and — when it
rescheduled via `reactor.callLater(0, self._sync)` — the `initial` flag the
scheduled call will carry (`_sync`'s parameter defaults to `False`). -/
structure CallbackEffect where
  pushed : List String
  scheduledInitial : Option Bool
deriving DecidableEq, Repr

/-- The callback effect when nothing happens. -/
def noEffect : CallbackEffect := { pushed := [], scheduledInitial := none }

/-- The external `SyncRestServlet.encode_response` serializer, abstracted:
the result's pre-encoded payload. -/
def encode_response (r : SyncResult) : String := r.payload

/-- `_sync_callback` (lines 270-287): only when `shouldSync` still holds
does it advance `since` to the result's `next_batch`, push the encoded
response, and schedule the next `_sync` (with `initial` defaulted to
`False`). -/
def sync_callback (s : Session) (r : SyncResult) : Session × CallbackEffect :=
  if s.shouldSync then
    ({ s with since := some r.next_batch },
     { pushed := [encode_response r], scheduledInitial := some false })
  else
    (s, noEffect)

/-- One whole iteration: run `sync_with_presence_context`, then — because
`sync.addCallback(self._sync_callback)` (line 266) attaches only a callback,
not an errback — invoke `_sync_callback` on a successful result only; an
error skips it and propagates as an unhandled errback. -/
structure IterationResult where
  session : Session
  run : ContextRun
  effects : CallbackEffect

/-- One iteration of the sync loop (lines 226-287). -/
def syncIteration (s : Session) (o : CallOutcome) : IterationResult :=
  let run := sync_with_presence_context o
  match run.result with
  | .ok r =>
    let sc := sync_callback s r
    { session := sc.1, run := run, effects := sc.2 }
  | .error _ => { session := s, run := run, effects := noEffect }

/-- `onClose` (lines 215-219): clear `shouldSync`, and call `.cancel()` on
`currentSync` when one is outstanding (second component: whether `cancel`
was invoked). -/
def onClose (s : Session) : Session × Bool :=
  ({ s with shouldSync := false }, s.hasCurrentSync)

/-- `startSyncingClient` (lines 221-224): set `shouldSync` and run the first
`_sync` with `initial=True`. -/
def startSyncingClient (s : Session) : Session × SyncCall :=
  (({ s with shouldSync := true }), mkSyncCall { s with shouldSync := true } true)

/-! ## `_handle_presence` (lines 294-317) -/

/-- A JSON parameter value as the presence handler inspects it: the only
test applied is `isinstance(-, basestring)`. -/
inductive PVal where
  | str (s : String)
  | num (n : Int)
  | boolean (b : Bool)
  | container
deriving DecidableEq, Repr

/-- The handler's `params` dict (keys unique, as produced by `json.loads`). -/
abbrev Params := List (String × PVal)

/-- Python's `dict.pop(key)` on an association list: the value and the
remaining entries, or `none` (a `KeyError`) when the key is absent. -/
def popP (key : String) : Params → Option (PVal × Params)
  | [] => none
  | (k, v) :: rest =>
    if k = key then some (v, rest)
    else
      match popP key rest with
      | none => none
      | some (v2, rest2) => some (v2, (k, v) :: rest2)

/-- Whether a value passes `isinstance(-, basestring)`. -/
def PVal.isString : PVal → Bool
  | .str _ => true
  | _ => false

/-- How `_handle_presence` ends: `set_state` invoked with the built state
dict and a success envelope returned, or a `SynapseError` (HTTP status,
message, errcode) raised into the dispatcher with no presence update. -/
inductive PresenceOut where
  | ok (id : String) (presenceVal : PVal) (statusMsg : Option PVal)
  | err (status : Nat) (message : String) (errcode : String)
deriving DecidableEq, Repr

/-- `_handle_presence` (lines 294-317): pop `presence` (a `KeyError` falls
into `except Exception` and becomes `SynapseError(400, "Unable to parse
state")`); pop `status_msg` if present and require a string; any remaining
key raises `SynapseError(400, "Too many keys", errcode=Codes.BAD_JSON)`;
only then call `presence_handler.set_state`. -/
def handle_presence (msgId : String) (params : Params) : PresenceOut :=
  match popP "presence" params with
  | none => .err 400 "Unable to parse state" codeUnknown
  | some (pv, rest) =>
    match popP "status_msg" rest with
    | some (sv, rest2) =>
      if sv.isString = false then
        .err 400 "status_msg must be a string." codeUnknown
      else
        match rest2 with
        | [] => .ok msgId pv (some sv)
        | _ :: _ => .err 400 "Too many keys" codeBadJson
    | none =>
      match rest with
      | [] => .ok msgId pv none
      | _ :: _ => .err 400 "Too many keys" codeBadJson

/-- Whether the handler reached the `presence_handler.set_state` call. -/
def setStateCalled : PresenceOut → Bool
  | .ok _ _ _ => true
  | .err _ _ _ => false

/-! ## `_handle_typing` (lines 429-453) -/

/-- A `typing` request's fields: `params["room_id"]`, `params["typing"]`,
and the optional `params.get("timeout", 30000)`. -/
structure TypingMsg where
  id : String
  room_id : String
  typing : Bool
  timeout : Option Int
deriving DecidableEq, Repr

/-- The call forwarded to the typing handler: `started_typing` carries the
clamped timeout, `stopped_typing` carries none. -/
inductive TypingCall where
  | started (room : String) (timeout : Int)
  | stopped (room : String)
deriving DecidableEq, Repr

/-- `_handle_typing` (lines 429-453): `timeout =
min(params.get("timeout", 30000), 120000)`, then `started_typing` with that
timeout when `params["typing"]` holds, `stopped_typing` otherwise. -/
def handle_typing (m : TypingMsg) : TypingCall :=
  let timeout := min (m.timeout.getD 30000) 120000
  if m.typing then .started m.room_id timeout else .stopped m.room_id

/-! ## Concrete values used by witness statements -/

/-- A concrete requester for witnesses. -/
def wReq : Requester := ⟨"@alice:example.org", 7⟩

/-- A concrete operation environment: event creation returns an event id
derived from the invocation counter, so re-execution would be visible. -/
def wOps : OpEnv := ⟨fun n => .ok ("$event" ++ toString n), fun _ => .ok none⟩

/-- A concrete `send` request. -/
def wSend : TxnReq := .send ⟨"txn1", "m.room.message", "body", "!room:example.org"⟩

/-- A concrete `state` request bearing the same message id as `wSend`. -/
def wState : TxnReq := .state ⟨"txn1", "m.room.topic", "t", "!room:example.org", some ""⟩

/-- The empty initial cache. -/
def wSt0 : CacheState := ⟨[], 0⟩

/-- A concrete session with an outstanding sync call. -/
def wSession : Session :=
  { userId := "@bob:example.org", since := some "s1", filter_id := "f1",
    full_state := true, device_id := some "DEV", shouldSync := true,
    hasCurrentSync := true, presence := "online" }

/-! ## Helper lemmas about the transaction cache -/

/-- After `fetch_or_execute`, the key holds exactly the returned outcome. -/
theorem lookupTxn_fetch (key : String) (op : CacheState → TxnOutcome × CacheState)
    (st : CacheState) :
    lookupTxn (fetch_or_execute key op st).2.entries key
      = some (fetch_or_execute key op st).1 := by
  unfold fetch_or_execute
  cases h : lookupTxn st.entries key with
  | some r => simpa using h
  | none => simp [lookupTxn]

/-- A committed key is returned as-is, with no execution and no state
change. -/
theorem fetch_hit (key : String) (op : CacheState → TxnOutcome × CacheState)
    (st : CacheState) (r : TxnOutcome) (h : lookupTxn st.entries key = some r) :
    fetch_or_execute key op st = (r, st) := by
  unfold fetch_or_execute
  rw [h]

/-- Two `fetch_or_execute` calls under one key: the second returns the
first's outcome and changes nothing. -/
theorem fetch_twice (key : String)
    (op1 op2 : CacheState → TxnOutcome × CacheState) (st : CacheState) :
    fetch_or_execute key op2 (fetch_or_execute key op1 st).2
      = ((fetch_or_execute key op1 st).1, (fetch_or_execute key op1 st).2) :=
  fetch_hit key op2 _ _ (lookupTxn_fetch key op1 st)

/-- The uncached `send` body performs exactly one execution. -/
theorem handle_send_uncached_snd (ops : OpEnv) (m : SendMsg) (st : CacheState) :
    (handle_send_uncached ops m st).2 = bumpExec st := by
  unfold handle_send_uncached
  cases ops.createEvent st.execCount <;> rfl

/-- The uncached `state` body performs exactly one execution. -/
theorem handle_state_uncached_snd (ops : OpEnv) (m : StateMsg) (st : CacheState) :
    (handle_state_uncached ops m st).2 = bumpExec st := by
  unfold handle_state_uncached
  by_cases h : m.event_type = eventTypeMember
  · simp only [if_pos h]
    cases hm : ops.updateMembership st.execCount with
    | ok v => cases v <;> rfl
    | error e => rfl
  · simp only [if_neg h]
    cases ops.createEvent st.execCount <;> rfl

/-- A cached request grows the execution counter by at most one. -/
theorem execTxn_count (req : Requester) (ops : OpEnv) (t : TxnReq)
    (st : CacheState) :
    (execTxn req ops t st).2.execCount ≤ st.execCount + 1 := by
  cases t with
  | send m =>
    show (fetch_or_execute _ _ st).2.execCount ≤ st.execCount + 1
    unfold fetch_or_execute
    cases h : lookupTxn st.entries (genTxnKey req m.id) with
    | some r => exact Nat.le_succ_of_le (Nat.le_refl _)
    | none => simp [handle_send_uncached_snd, bumpExec]
  | state m =>
    show (fetch_or_execute _ _ st).2.execCount ≤ st.execCount + 1
    unfold fetch_or_execute
    cases h : lookupTxn st.entries (genTxnKey req m.id) with
    | some r => exact Nat.le_succ_of_le (Nat.le_refl _)
    | none => simp [handle_state_uncached_snd, bumpExec]

/-- Every cached request is one `fetch_or_execute` under the key derived
from the requester and the message id. -/
theorem execTxn_eq_fetch (req : Requester) (ops : OpEnv) (t : TxnReq)
    (st : CacheState) :
    execTxn req ops t st
      = fetch_or_execute (genTxnKey req t.msgId)
          (match t with
           | .send m => handle_send_uncached ops m
           | .state m => handle_state_uncached ops m) st := by
  cases t <;> rfl

/-! ## The claims -/

/-- C1: two `send`/`state` requests bearing the same client message id from
the same requester execute the underlying event-creation operation at most
once: the first routes through the shared transaction cache under
`user/token/message-id`, and the second returns the first's cached outcome
with the cache state (so also the execution counter) unchanged. -/
theorem txn_idempotent (req : Requester) (ops : OpEnv) (t1 t2 : TxnReq)
    (st0 : CacheState) (h : t2.msgId = t1.msgId) :
    (execTxn req ops t2 (execTxn req ops t1 st0).2).1 = (execTxn req ops t1 st0).1
    ∧ (execTxn req ops t2 (execTxn req ops t1 st0).2).2 = (execTxn req ops t1 st0).2
    ∧ lookupTxn (execTxn req ops t1 st0).2.entries (genTxnKey req t1.msgId)
        = some (execTxn req ops t1 st0).1
    ∧ (execTxn req ops t1 st0).2.execCount ≤ st0.execCount + 1 := by
  have e1 := execTxn_eq_fetch req ops t1 st0
  have e2 := execTxn_eq_fetch req ops t2 (execTxn req ops t1 st0).2
  rw [h] at e2
  refine ⟨?_, ?_, ?_, execTxn_count req ops t1 st0⟩
  · rw [e2, e1, fetch_twice]
  · rw [e2, e1, fetch_twice]
  · rw [e1]
    exact lookupTxn_fetch _ _ _

/-- Witness for C1 at concrete inputs: a `send` then a `state` with message
id `txn1`. -/
theorem txn_idempotent_witness :
    (execTxn wReq wOps wState (execTxn wReq wOps wSend wSt0).2).1
        = (execTxn wReq wOps wSend wSt0).1
    ∧ (execTxn wReq wOps wState (execTxn wReq wOps wSend wSt0).2).2
        = (execTxn wReq wOps wSend wSt0).2
    ∧ lookupTxn (execTxn wReq wOps wSend wSt0).2.entries
          (genTxnKey wReq wSend.msgId)
        = some (execTxn wReq wOps wSend wSt0).1
    ∧ (execTxn wReq wOps wSend wSt0).2.execCount ≤ wSt0.execCount + 1 :=
  txn_idempotent wReq wOps wSend wState wSt0 rfl

/-- C2 (amended): for a text frame parsing to a JSON object that carries
both an `id` and a string-valued `method`, the dispatcher emits exactly one
outbound frame, no exception escapes, and every error envelope it builds
carries the request's id; a frame that is not valid JSON (or is binary)
produces no reply.  (The unamended claim fails when the object lacks a
`method` key: see the counterexample.) -/
theorem dispatch_one_reply (behav : String → List (String × JVal) → HandlerResult)
    (fields : List (String × JVal)) (i : JVal) (m : String)
    (hid : jlookup fields "id" = some i)
    (hm : jlookup fields "method" = some (.jstr m)) :
    ((onMessage behav (.object fields)).1.length = 1
      ∧ (onMessage behav (.object fields)).2 = false
      ∧ ∀ j ec em, Sent.envelope j ec em ∈ (onMessage behav (.object fields)).1 → j = i)
    ∧ onMessage behav .unparseable = ([], false)
    ∧ onMessage behav .binary = ([], false) := by
  refine ⟨?_, rfl, rfl⟩
  simp only [onMessage, hm, isContainer]
  by_cases hs : m ∈ supportedMethods
  · simp only [if_neg (by simp : ¬(false = true)), if_pos hs]
    cases hb : behav m fields with
    | ok resp => simp [dispatchKnown, hb]
    | synapseErr ec em =>
      simp only [dispatchKnown, hb, hid]
      refine ⟨by simp, by simp, ?_⟩
      intro j ec2 em2 hmem
      simp only [List.mem_singleton, Sent.envelope.injEq] at hmem
      exact hmem.1
    | exc d =>
      simp only [dispatchKnown, hb, hid]
      refine ⟨by simp, by simp, ?_⟩
      intro j ec2 em2 hmem
      simp only [List.mem_singleton, Sent.envelope.injEq] at hmem
      exact hmem.1
  · simp only [if_neg (by simp : ¬(false = true)), if_neg hs, unknownMethodReply, hid]
    refine ⟨by simp, by simp, ?_⟩
    intro j ec2 em2 hmem
    simp only [List.mem_singleton, Sent.envelope.injEq] at hmem
    exact hmem.1

/-- Witness for C2 at a concrete input: a `ping` request with id `x`. -/
theorem dispatch_one_reply_witness :
    ((onMessage (fun _ _ => HandlerResult.ok "pong")
        (.object [("id", JVal.jstr "x"), ("method", JVal.jstr "ping")])).1.length = 1
      ∧ (onMessage (fun _ _ => HandlerResult.ok "pong")
          (.object [("id", JVal.jstr "x"), ("method", JVal.jstr "ping")])).2 = false
      ∧ ∀ j ec em, Sent.envelope j ec em ∈ (onMessage (fun _ _ => HandlerResult.ok "pong")
          (.object [("id", JVal.jstr "x"), ("method", JVal.jstr "ping")])).1 → j = JVal.jstr "x")
    ∧ onMessage (fun _ _ => HandlerResult.ok "pong") .unparseable = ([], false)
    ∧ onMessage (fun _ _ => HandlerResult.ok "pong") .binary = ([], false) :=
  dispatch_one_reply (fun _ _ => HandlerResult.ok "pong")
    [("id", JVal.jstr "x"), ("method", JVal.jstr "ping")] (JVal.jstr "x") "ping" rfl rfl

/-- Counterexample to C2 as stated: the payload `id x` with no `method` key
parses and carries a recognizable id, yet the dispatcher sends nothing (the
`msg["method"]` access raises outside the `try` block and the exception
escapes). -/
theorem dispatch_drop_cex :
    onMessage (fun _ _ => HandlerResult.ok "r") (.object [("id", JVal.jstr "x")]) = ([], true)
    ∧ (onMessage (fun _ _ => HandlerResult.ok "r") (.object [("id", JVal.jstr "x")])).1.length = 0 :=
  ⟨rfl, rfl⟩

/-- C3: handshake credential failures map to distinct close codes before any
session is open: no `access_token` closes with 3001 with the auth service
never consulted; an `AuthError` from credential validation closes with 3002;
any other validation failure closes with 3003; none of the three announces
presence or starts the sync loop. -/
theorem auth_close_codes (t : String) (a : AuthOutcome) (p e1 e2 : String) :
    onConnect none a p =
      { closeCode := some 3001, closeReason := some ERR_NO_AT,
        authAttempted := false, presenceAnnounced := false, syncStarted := false }
    ∧ onConnect (some t) (.authError e1) p =
      { closeCode := some 3002, closeReason := some ERR_UNKNOWN_AT,
        authAttempted := true, presenceAnnounced := false, syncStarted := false }
    ∧ onConnect (some t) (.otherError e2) p =
      { closeCode := some 3003, closeReason := some ERR_UNKNOWN_FAIL,
        authAttempted := true, presenceAnnounced := false, syncStarted := false } :=
  ⟨rfl, rfl, rfl⟩

/-- C4 (amended): a request whose `method` is a string other than the six
recognized methods is answered immediately — independently of every
handler's behaviour — with exactly the envelope
`id / error(errcode M_BAD_JSON, error "Unknown method")`, echoing the
request id.  (The claim's errcode `"bad request"` is not what the code
sends: see the counterexample.) -/
theorem unknown_method_envelope
    (behav behav2 : String → List (String × JVal) → HandlerResult)
    (fields : List (String × JVal)) (i : JVal) (m : String)
    (hid : jlookup fields "id" = some i)
    (hm : jlookup fields "method" = some (.jstr m))
    (hn : m ∉ supportedMethods) :
    onMessage behav (.object fields)
      = ([Sent.envelope i codeBadJson "Unknown method"], false)
    ∧ onMessage behav (.object fields) = onMessage behav2 (.object fields) := by
  have h1 : ∀ b : String → List (String × JVal) → HandlerResult,
      onMessage b (.object fields)
        = ([Sent.envelope i codeBadJson "Unknown method"], false) := by
    intro b
    simp only [onMessage, hm, isContainer]
    simp only [if_neg (by simp : ¬(false = true)), if_neg hn, unknownMethodReply, hid]
  exact ⟨h1 behav, (h1 behav).trans (h1 behav2).symm⟩

/-- Witness for C4 at a concrete input: method `bogus`, id `x`, under two
different handler behaviours. -/
theorem unknown_method_envelope_witness :
    onMessage (fun _ _ => HandlerResult.ok "pong")
        (.object [("id", JVal.jstr "x"), ("method", JVal.jstr "bogus")])
      = ([Sent.envelope (JVal.jstr "x") codeBadJson "Unknown method"], false)
    ∧ onMessage (fun _ _ => HandlerResult.ok "pong")
        (.object [("id", JVal.jstr "x"), ("method", JVal.jstr "bogus")])
      = onMessage (fun _ _ => HandlerResult.exc "boom")
        (.object [("id", JVal.jstr "x"), ("method", JVal.jstr "bogus")]) :=
  unknown_method_envelope (fun _ _ => HandlerResult.ok "pong")
    (fun _ _ => HandlerResult.exc "boom")
    [("id", JVal.jstr "x"), ("method", JVal.jstr "bogus")] (JVal.jstr "x") "bogus"
    rfl rfl (by decide)

/-- Counterexample to C4 as stated: the reply to `id x, method bogus`
carries errcode `M_BAD_JSON`, not the claimed `"bad request"`. -/
theorem unknown_method_cex :
    onMessage (fun _ _ => HandlerResult.ok "r")
        (.object [("id", JVal.jstr "x"), ("method", JVal.jstr "bogus")])
      = ([Sent.envelope (JVal.jstr "x") "M_BAD_JSON" "Unknown method"], false)
    ∧ codeBadJson ≠ "bad request" :=
  ⟨rfl, by decide⟩

/-- C5: when the external sync call of an iteration fails, the failure is
logged, the cursor (indeed the whole session) is unchanged, nothing is
pushed, and no further iteration is scheduled from that path (the callback
is skipped because the inner deferred fires with an error). -/
theorem sync_failure_stops (s : Session) (e : String) :
    (syncIteration s (.failure e)).session = s
    ∧ (syncIteration s (.failure e)).effects = noEffect
    ∧ (syncIteration s (.failure e)).run.loggedWarn = true :=
  ⟨rfl, rfl, rfl⟩

/-- C6: closing a connection with a long-poll outstanding invokes `cancel()`
on the in-flight call, clears `shouldSync` so any late-arriving result's
delivery step pushes nothing, advances nothing and schedules nothing, and
the presence `user_syncing` marker of a cancelled call is released (the
`with` block exits on every path). -/
theorem close_cancels (s : Session) (h : s.hasCurrentSync = true) :
    (onClose s).2 = true
    ∧ (onClose s).1.shouldSync = false
    ∧ (∀ r, sync_callback (onClose s).1 r = ((onClose s).1, noEffect))
    ∧ (sync_with_presence_context .cancelled).markerReleased = true :=
  ⟨h, rfl, fun _ => rfl, rfl⟩

/-- Witness for C6 at a concrete session with an outstanding sync. -/
theorem close_cancels_witness :
    (onClose wSession).2 = true
    ∧ (onClose wSession).1.shouldSync = false
    ∧ (∀ r, sync_callback (onClose wSession).1 r = ((onClose wSession).1, noEffect))
    ∧ (sync_with_presence_context .cancelled).markerReleased = true :=
  close_cancels wSession rfl

/-- C7: the client's `full_state` flag reaches the external sync call and
the request fingerprint only on the initial iteration (the one
`startSyncingClient` runs); every non-initial iteration passes `full_state =
false` in both places, and the iteration `_sync_callback` schedules is
always non-initial. -/
theorem full_state_first_only (s : Session) (r : SyncResult) :
    (mkSyncCall s true).full_state = s.full_state
    ∧ (mkSyncCall s true).request_key.full_state = s.full_state
    ∧ (mkSyncCall s false).full_state = false
    ∧ (mkSyncCall s false).request_key.full_state = false
    ∧ (sync_callback s r).2.scheduledInitial
        = (if s.shouldSync then some false else none)
    ∧ (startSyncingClient s).2.full_state = s.full_state := by
  refine ⟨rfl, rfl, rfl, rfl, ?_, rfl⟩
  by_cases h : s.shouldSync = true <;> simp [sync_callback, h, noEffect]

/-- C8: the timeout forwarded to `started_typing` is the minimum of the
client-supplied timeout and 120000; in particular 999999999 is clamped to
120000, and a `typing: false` request forwards no timeout at all. -/
theorem typing_timeout_clamped (idv room : String) (t : Int) :
    handle_typing ⟨idv, room, true, some t⟩ = .started room (min t 120000)
    ∧ handle_typing ⟨idv, room, true, some 999999999⟩ = .started room 120000
    ∧ handle_typing ⟨idv, room, false, some t⟩ = .stopped room := by
  refine ⟨rfl, ?_, rfl⟩
  show TypingCall.started room (min (999999999 : Int) 120000) = .started room 120000
  norm_num [min_def]

/-- C10: a `typing` request omitting the timeout key gets the default of
exactly 30000 ms (which the 120000 clamp leaves unchanged) when forwarding
`started_typing`. -/
theorem typing_default_timeout (idv room : String) :
    handle_typing ⟨idv, room, true, none⟩ = .started room 30000
    ∧ min (30000 : Int) 120000 = 30000 := by
  constructor
  · show TypingCall.started room (min ((30000 : Int)) 120000) = .started room 30000
    norm_num [min_def]
  · norm_num [min_def]

/-- C9 (amended): a `presence` request whose params carry `presence` (and,
if present, a string `status_msg`) plus any further key is rejected with
`SynapseError(400, "Too many keys", M_BAD_JSON)` and `set_state` is never
reached; when `presence` itself is absent the rejection is instead
`SynapseError(400, "Unable to parse state")` — see the counterexample — but
still performs no presence update. -/
theorem presence_extra_key_rejected (msgId : String) (params : Params)
    (pv sv : PVal) (rest rest2 : Params) :
    (popP "presence" params = some (pv, rest) →
      popP "status_msg" rest = none → rest ≠ [] →
      handle_presence msgId params = .err 400 "Too many keys" codeBadJson
      ∧ setStateCalled (handle_presence msgId params) = false)
    ∧ (popP "presence" params = some (pv, rest) →
      popP "status_msg" rest = some (sv, rest2) → sv.isString = true → rest2 ≠ [] →
      handle_presence msgId params = .err 400 "Too many keys" codeBadJson
      ∧ setStateCalled (handle_presence msgId params) = false) := by
  constructor
  · intro h1 h2 h3
    cases rest with
    | nil => exact absurd rfl h3
    | cons a l =>
      constructor
      · simp [handle_presence, h1, h2]
      · simp [handle_presence, h1, h2, setStateCalled]
  · intro h1 h2 hstr h3
    cases rest2 with
    | nil => exact absurd rfl h3
    | cons a l =>
      constructor
      · simp [handle_presence, h1, h2, hstr]
      · simp [handle_presence, h1, h2, hstr, setStateCalled]

/-- Witness for C9 at concrete inputs: an extra key `foo` beside `presence`,
and an extra key `bar` beside `presence` and a string `status_msg`. -/
theorem presence_extra_key_witness :
    (handle_presence "req1" [("presence", PVal.str "online"), ("foo", PVal.num 1)]
        = .err 400 "Too many keys" codeBadJson
      ∧ setStateCalled (handle_presence "req1"
          [("presence", PVal.str "online"), ("foo", PVal.num 1)]) = false)
    ∧ (handle_presence "req2"
          [("presence", PVal.str "online"), ("status_msg", PVal.str "hi"), ("bar", PVal.num 2)]
        = .err 400 "Too many keys" codeBadJson
      ∧ setStateCalled (handle_presence "req2"
          [("presence", PVal.str "online"), ("status_msg", PVal.str "hi"), ("bar", PVal.num 2)]) = false) := by
  constructor
  · exact (presence_extra_key_rejected "req1"
      [("presence", PVal.str "online"), ("foo", PVal.num 1)]
      (PVal.str "online") (PVal.str "unused") [("foo", PVal.num 1)] []).1
      rfl rfl (by decide)
  · exact (presence_extra_key_rejected "req2"
      [("presence", PVal.str "online"), ("status_msg", PVal.str "hi"), ("bar", PVal.num 2)]
      (PVal.str "online") (PVal.str "hi")
      [("status_msg", PVal.str "hi"), ("bar", PVal.num 2)] [("bar", PVal.num 2)]).2
      rfl rfl rfl (by decide)

/-- Counterexample to C9 as stated: params `foo: 1` contain a key other than
`presence` and `status_msg`, yet the handler rejects with `"Unable to parse
state"` (errcode `M_UNKNOWN`), not with the claimed "too many keys" error. -/
theorem presence_extra_key_cex :
    handle_presence "x" [("foo", PVal.num 1)]
      = .err 400 "Unable to parse state" codeUnknown
    ∧ (PresenceOut.err 400 "Unable to parse state" codeUnknown
        ≠ PresenceOut.err 400 "Too many keys" codeBadJson) :=
  ⟨rfl, by decide⟩

end Websocket
